import Mathlib

/-!
Verification development for the k8s-service-loader-script repository.

The repository holds two versions of one interactive CLI script:
  - src/k8s-service-loader-script.js  (v0.0.2)
  - src/unnamed/part_000              (v0.0.1)

Both shell out to kubectl, parse the tabular pod listing into a map from
logical service name to per-environment pod identity, prompt the user for a
service / environment / ports, and spawn a port-forward child process.

This file embeds the string-processing and control-flow core of the scripts:
  - the whitespace split used on header and data rows (JS split on a
    whitespace-run regex),
  - the single-character splits (JS String.prototype.split with a
    one-character separator string),
  - getServicesMap (identical in both versions, except that v0.0.2 threads an
    optional namespace argument; v0.0.1 is the nsArg = none instance),
  - JS parseInt as used on the interactive answers,
  - the environment-selection logic of both versions,
  - the command strings and spawn argument vectors for port-forward,
  - the sequential question flow of v0.0.2's main as a pure function over the
    list of typed answers.

JS Map objects are embedded as insertion-ordered association lists; a JS
value that may be a string or undefined is embedded as Option String; a JS
exception aborting the computation is embedded as Except.error ().
-/

deriving instance DecidableEq for Except

/-- Character class of the whitespace-run regex the source splits rows on
(ASCII whitespace as it can occur in kubectl tabular output). -/
def jsIsWs (c : Char) : Bool :=
  c = ' ' || c = '\t' || c = '\n' || c = '\r' || c = '\x0b' || c = '\x0c'

/-- JS split on a whitespace-run regex, on character lists: each maximal run
of whitespace characters is one separator, so a leading (resp. trailing) run
yields a leading (resp. trailing) empty piece, and the empty string yields
one empty piece.  A whitespace character closes a piece exactly when it is
the last character of its run. -/
def splitWsChars : List Char → List (List Char)
  | [] => [[]]
  | c :: rest =>
    let r := splitWsChars rest
    if jsIsWs c then
      match rest with
      | c2 :: _ => if jsIsWs c2 then r else [] :: r
      | [] => [] :: r
    else
      match r with
      | t :: ts => (c :: t) :: ts
      | [] => [[c]]

/-- Embedding of the source's line.split on the whitespace-run regex. -/
def splitWs (s : String) : List String :=
  (splitWsChars s.data).map (fun cs => String.mk cs)

/-- JS String.prototype.split with a one-character separator string, on
character lists: every separator occurrence is a boundary, adjacent
separators yield empty pieces. -/
def splitOnChar (sep : Char) : List Char → List (List Char)
  | [] => [[]]
  | c :: rest =>
    let r := splitOnChar sep rest
    if c = sep then [] :: r
    else
      match r with
      | t :: ts => (c :: t) :: ts
      | [] => [[c]]

/-- Embedding of the source's s.split(sep) for a one-character separator. -/
def jsSplit (sep : Char) (s : String) : List String :=
  (splitOnChar sep s.data).map (fun cs => String.mk cs)

/-- Embedding of JS String.prototype.trim: remove whitespace from both ends
(the whitespace that occurs in kubectl output is ASCII). -/
def jsTrim (s : String) : String :=
  String.mk (((s.data.dropWhile jsIsWs).reverse.dropWhile jsIsWs).reverse)

/-- JS String.prototype.startsWith, on the underlying character lists. -/
def strStarts (s t : String) : Bool :=
  t.data.isPrefixOf s.data

/-- Interleaving a dash between character lists (JS Array.prototype.join). -/
def joinDashChars : List (List Char) → List Char
  | [] => []
  | [x] => x
  | x :: xs => x ++ '-' :: joinDashChars xs

/-- JS Array.prototype.join with a dash separator. -/
def joinDash (parts : List String) : String :=
  String.mk (joinDashChars (parts.map String.data))

/-- JS Array.prototype.indexOf on a list of strings; none embeds -1. -/
def jsIndexOf (x : String) : List String → Option Nat
  | [] => none
  | y :: rest => if y = x then some 0 else (jsIndexOf x rest).map (· + 1)

/-- JS indexing columns[i] where i may be -1 (none) or out of range; none
embeds the JS value undefined. -/
def getCol (cols : List String) : Option Nat → Option String
  | none => none
  | some i => cols[i]?

/-- The three deployment environments recognized by the scripts. -/
inductive Env
  | dev
  | qa
  | stg
deriving DecidableEq, Repr

/-- The string the source stores and interpolates for each environment. -/
def envString : Env → String
  | .dev => "dev"
  | .qa => "qa"
  | .stg => "stg"

/-- Environment detection from the pod NAME column: the chain of
String.startsWith tests of the source (dev- first, then qa-, then stg-);
none embeds the continue branch that skips the row. -/
def envOfName (name : String) : Option Env :=
  if strStarts name "dev-" then some .dev
  else if strStarts name "qa-" then some .qa
  else if strStarts name "stg-" then some .stg
  else none

/-- Embedding of nameColumn.replace of the anchored alternation of the three
environment tags with the empty string: removes the matched leading tag, or
leaves the string unchanged when none matches at the start. -/
def stripEnvTag (name : String) : String :=
  if strStarts name "dev-" then String.mk (name.data.drop 4)
  else if strStarts name "qa-" then String.mk (name.data.drop 3)
  else if strStarts name "stg-" then String.mk (name.data.drop 4)
  else name

/-- Embedding of modifiedName.replace of the regex built as a caret followed
by the namespace and a dash (global flag): with the caret anchor the regex
can match only at position 0, so at most the single leading occurrence of
ns- is removed.  The namespace is treated as literal text: Kubernetes
namespace names are DNS labels (lowercase alphanumerics and dashes), which
contain no regex metacharacters. -/
def stripNsOnce (ns s : String) : String :=
  if strStarts s (ns ++ "-") then String.mk (s.data.drop (ns.data.length + 1)) else s

/-- One value of the services map: the source stores the object with fields
id and namespace.  The namespace field is ns here (namespace is a Lean
keyword); it is Option String because the stored JS value is undefined when
no namespace argument was given and the header has no NAMESPACE column. -/
structure Entry where
  id : String
  ns : Option String
deriving DecidableEq, Repr

/-- The per-service JS object indexed by environment tag. -/
structure EnvMap where
  dev : Option Entry := none
  qa : Option Entry := none
  stg : Option Entry := none
deriving DecidableEq, Repr

/-- Reading the per-service object at an environment key. -/
def envGet (m : EnvMap) : Env → Option Entry
  | .dev => m.dev
  | .qa => m.qa
  | .stg => m.stg

/-- Writing the per-service object at an environment key (the assignment
servicesMap.get(serviceName)[envTag] = {...} of the source). -/
def envSet (m : EnvMap) : Env → Entry → EnvMap
  | .dev, e => { m with dev := some e }
  | .qa, e => { m with qa := some e }
  | .stg, e => { m with stg := some e }

/-- The services map: a JS Map keyed by service name, embedded as an
insertion-ordered association list with distinct keys. -/
abbrev ServicesMap := List (String × EnvMap)

/-- Embedding of the source's update: if the key is absent a fresh object is
appended (Map.set on a new key appends in insertion order), otherwise the
existing object is updated in place. -/
def insertEntry : ServicesMap → String → Env → Entry → ServicesMap
  | [], svc, env, e => [(svc, envSet {} env e)]
  | (k, em) :: rest, svc, env, e =>
    if k = svc then (k, envSet em env e) :: rest
    else (k, em) :: insertEntry rest svc env e

/-- JS servicesMap.get: the per-service object, or undefined (none). -/
def lookupService : ServicesMap → String → Option EnvMap
  | [], _ => none
  | (k, em) :: rest, svc => if k = svc then some em else lookupService rest svc

/-- Combined read servicesMap.get(svc)[env] when the service key exists. -/
def mapGet (m : ServicesMap) (svc : String) (env : Env) : Option Entry :=
  match lookupService m svc with
  | none => none
  | some em => envGet em env

/-- The name of a row after both stripping steps of the source: first the
environment tag, then, when the namespace value is truthy (a string other
than the empty string; undefined is falsy), the leading namespace-dash
occurrence. -/
def rowName (nsCol : Option String) (name : String) : String :=
  let m1 := stripEnvTag name
  match nsCol with
  | some ns => if ns = "" then m1 else stripNsOnce ns m1
  | none => m1

/-- The namespace value a row resolves: the namespace argument when one was
given (v0.0.2), else the NAMESPACE column of the row. -/
def rowNsCol (nsArg : Option String) (nsIdx : Option Nat) (columns : List String) :
    Option String :=
  match nsArg with
  | some ns => some ns
  | none => getCol columns nsIdx

/-- The dash-split parts of a row name after both stripping steps. -/
def rowParts (nsArg : Option String) (nsIdx : Option Nat) (line name : String) :
    List String :=
  jsSplit '-' (rowName (rowNsCol nsArg nsIdx (splitWs line)) name)

/-- Processing of one data row of the loop body of getServicesMap, v0.0.2
(v0.0.1 is the nsArg = none instance): split the row on whitespace runs,
resolve the namespace value (the argument when given, else the NAMESPACE
column), read the NAME column (undefined there throws: .error ()), detect
the environment tag (no tag: the row is skipped), strip the tag and the
leading namespace, split on dashes and require strictly more than two parts;
the last two parts joined by a dash are the id, the preceding parts joined
by a dash are the service name. -/
def parseRow (nsArg : Option String) (nsIdx nameIdx : Option Nat) (line : String) :
    Except Unit (Option (String × Env × Entry)) :=
  match getCol (splitWs line) nameIdx with
  | none => .error ()
  | some nameCol =>
    match envOfName nameCol with
    | none => .ok none
    | some env =>
      let parts := rowParts nsArg nsIdx line nameCol
      if 2 < parts.length then
        .ok (some (joinDash (parts.take (parts.length - 2)), env,
          { id := joinDash (parts.drop (parts.length - 2)),
            ns := rowNsCol nsArg nsIdx (splitWs line) }))
      else
        .ok none

/-- The loop of getServicesMap over the data rows, threading the map. -/
def foldRows (nsArg : Option String) (nsIdx nameIdx : Option Nat) :
    List String → ServicesMap → Except Unit ServicesMap
  | [], m => .ok m
  | line :: rest, m =>
    match parseRow nsArg nsIdx nameIdx line with
    | .error e => .error e
    | .ok none => foldRows nsArg nsIdx nameIdx rest m
    | .ok (some (svc, env, entry)) =>
      foldRows nsArg nsIdx nameIdx rest (insertEntry m svc env entry)

/-- The whitespace-split header line of the trimmed listing text (the first
line; splitting a string on the newline character never yields an empty
list, so headD never falls back). -/
def headerCols (podsData : String) : List String :=
  splitWs ((jsSplit '\n' (jsTrim podsData)).headD "")

/-- The data rows of the trimmed listing text: every line after the header. -/
def dataRows (podsData : String) : List String :=
  (jsSplit '\n' (jsTrim podsData)).drop 1

/-- Embedding of getServicesMap: trim the captured text, split into lines,
locate the NAMESPACE and NAME columns in the header line, and fold the
remaining lines into the services map. -/
def getServicesMap (podsData : String) (nsArg : Option String) :
    Except Unit ServicesMap :=
  foldRows nsArg (jsIndexOf "NAMESPACE" (headerCols podsData))
    (jsIndexOf "NAME" (headerCols podsData)) (dataRows podsData) []

/-- Value of a hexadecimal digit character. -/
def hexDigitVal (c : Char) : Option Nat :=
  if c.isDigit then some (c.toNat - 48)
  else if 97 ≤ c.toNat && c.toNat ≤ 102 then some (c.toNat - 87)
  else if 65 ≤ c.toNat && c.toNat ≤ 70 then some (c.toNat - 55)
  else none

/-- Whether a character is a hexadecimal digit. -/
def isHexDigitChar (c : Char) : Bool :=
  (hexDigitVal c).isSome

/-- Value of a digit string in the given base. -/
def digitsVal (base : Nat) (ds : List Char) : Nat :=
  ds.foldl (fun acc c => acc * base + (hexDigitVal c).getD 0) 0

/-- Embedding of JS parseInt with no radix argument, as applied to the
interactive answers: skip leading whitespace, read an optional sign, switch
to base 16 after a 0x or 0X marker, then read the longest digit run; none
embeds NaN (no digits at all). -/
def parseIntJs (s : String) : Option Int :=
  let cs := s.data.dropWhile jsIsWs
  let sign : Int :=
    match cs with
    | '-' :: _ => -1
    | _ => 1
  let cs2 :=
    match cs with
    | '-' :: r => r
    | '+' :: r => r
    | _ => cs
  let digits : Nat × List Char :=
    match cs2 with
    | '0' :: c :: r =>
      if c = 'x' || c = 'X' then (16, r.takeWhile isHexDigitChar)
      else (10, cs2.takeWhile Char.isDigit)
    | _ => (10, cs2.takeWhile Char.isDigit)
  if digits.2.isEmpty then none
  else some (sign * (digitsVal digits.1 digits.2 : Nat))

/-- The numeric environment choice of v0.0.2: parseInt(envAnswer) || 1, so
NaN and 0 (both falsy) fall back to 1. -/
def envChoiceV2 (ans : String) : Int :=
  match parseIntJs ans with
  | none => 1
  | some n => if n = 0 then 1 else n

/-- Environment selection of v0.0.2 from the (trimmed) answer: the choice 1,
2 or 3 picks dev, qa or stg; any other resolved choice is the error branch
(none), which closes the readline interface without spawning anything. -/
def selectEnvV2 (ans : String) : Option Env :=
  let c := envChoiceV2 ans
  if c = 1 then some .dev
  else if c = 2 then some .qa
  else if c = 3 then some .stg
  else none

/-- Environment selection of v0.0.1: the raw answer is compared as a string
against the literals 1, 2 and 3; everything else is the error branch. -/
def selectEnvV1 (ans : String) : Option Env :=
  if ans = "1" then some .dev
  else if ans = "2" then some .qa
  else if ans = "3" then some .stg
  else none

/-- Outcome of one exec call of the child-process module: the error argument
of the callback (none embeds null, meaning the command exited zero), and the
captured stdout and stderr texts. -/
structure ExecOutcome where
  error : Option String
  stdout : String
  stderr : String
deriving DecidableEq, Repr

/-- Embedding of execPromise of v0.0.2: reject with the error when the
command failed, else reject with the stderr text when stderr is nonempty
(the empty string is falsy), else resolve with the captured stdout. -/
def execPromise (o : ExecOutcome) : Except String String :=
  match o.error with
  | some msg => .error msg
  | none => if o.stderr = "" then .ok o.stdout else .error o.stderr

/-- Embedding of the exec callback head of v0.0.1: print and return early on
an error or on nonempty stderr, else continue with the captured stdout. -/
def execHandlerV1 (o : ExecOutcome) : Option String :=
  match o.error with
  | some _ => none
  | none => if o.stderr = "" then some o.stdout else none

/-- Lexicographic comparison of character lists by code point, the order the
default JS Array.prototype.sort comparator induces on these ASCII names. -/
def charListLe : List Char → List Char → Bool
  | [], _ => true
  | _ :: _, [] => false
  | a :: as, b :: bs =>
    if a.toNat < b.toNat then true
    else if b.toNat < a.toNat then false
    else charListLe as bs

/-- String comparison used to model the default JS sort. -/
def strLeB (a b : String) : Bool :=
  charListLe a.data b.data

/-- Insertion into a sorted list of strings. -/
def insertSorted (x : String) : List String → List String
  | [] => [x]
  | y :: rest => if strLeB x y then x :: y :: rest else y :: insertSorted x rest

/-- Embedding of Array.from(servicesMap.keys()).sort(): the keys in
ascending order (the keys of the map are distinct, so the sorted list is
unique and the JS sort algorithm is irrelevant). -/
def sortStrings : List String → List String
  | [] => []
  | x :: rest => insertSorted x (sortStrings rest)

/-- JS template-literal interpolation of a value that may be undefined. -/
def jsInterp : Option String → String
  | some s => s
  | none => "undefined"

/-- The pod identifier template of both versions:
environment-namespace-serviceName-serviceId. -/
def podIdent (env ns svc id : String) : String :=
  env ++ "-" ++ ns ++ "-" ++ svc ++ "-" ++ id

/-- The portForwardCommand template literal of v0.0.2 (v0.0.1 builds the
same text with the destination port fixed to 3000). -/
def portForwardCommand (ns env svc id localPort servicePort : String) : String :=
  "kubectl port-forward --namespace " ++ ns ++ " " ++ podIdent env ns svc id ++
    " " ++ localPort ++ ":" ++ servicePort

/-- The logsCommand template literal of v0.0.2. -/
def logsCommand (ns env svc id : String) : String :=
  "kubectl logs --namespace " ++ ns ++ " " ++ podIdent env ns svc id ++ " -f"

/-- The argument vector v0.0.2 passes to spawn: the command text split on
single spaces, with the leading kubectl word dropped. -/
def spawnArgsV2 (cmd : String) : List String :=
  (jsSplit ' ' cmd).drop 1

/-- The argument vector v0.0.1 passes to spawn, written as an explicit array
in the source, with the destination port fixed to 3000. -/
def spawnArgsV1 (ns env svc id localPort : String) : List String :=
  ["port-forward", "--namespace", ns, podIdent env ns svc id, localPort ++ ":3000"]

/-- How the interactive session of v0.0.2's main ends. -/
inductive FlowResult
  | noServices
  | invalidService
  | invalidEnv
  | envMissing
  | spawnPF (args : List String) (logsCmd : String)
deriving DecidableEq, Repr

/-- Reading one answer: prompt resolves with answer.trim().  The flows
settled below never exhaust the input list before their result is fixed, so
the empty-string default for an exhausted list is never reached along a
settled path. -/
def answered (inputs : List String) : String × List String :=
  match inputs with
  | [] => ("", [])
  | a :: rest => (jsTrim a, rest)

/-- The question flow of v0.0.2's main after the pod listing succeeded, as a
function of the listing text, the optional namespace argument, the typed
answers in order, and the outcome of the port-detection exec.  The Nat in
the result counts the questions asked.  Each branch mirrors one early
return of main: empty service list, invalid service index, invalid
environment choice, environment absent for the service; the final branch
spawns the port-forward process and carries its argument vector together
with the logs command handed to the one-shot data event. -/
def mainFlow (podsData : String) (nsArg : Option String) (inputs : List String)
    (detectExec : Except Unit String) : Except Unit (FlowResult × Nat) :=
  match getServicesMap podsData nsArg with
  | .error e => .error e
  | .ok m =>
    let servicesList := sortStrings (m.map Prod.fst)
    if servicesList.length = 0 then .ok (.noServices, 0)
    else
      let a1 := answered inputs
      match (parseIntJs a1.1).map (fun n => n - 1) with
      | none => .ok (.invalidService, 1)
      | some selectedIndex =>
        if selectedIndex < 0 ∨ (servicesList.length : Int) ≤ selectedIndex then
          .ok (.invalidService, 1)
        else
          let selectedService := servicesList.getD selectedIndex.toNat ""
          let a2 := answered a1.2
          match selectEnvV2 a2.1 with
          | none => .ok (.invalidEnv, 2)
          | some env =>
            match lookupService m selectedService with
            | none => .error ()
            | some em =>
              match envGet em env with
              | none => .ok (.envMissing, 2)
              | some details =>
                let nsRes : Option String :=
                  match nsArg with
                  | some ns => some ns
                  | none => details.ns
                let a3 := answered a2.2
                let localPort := if a3.1 = "" then "3000" else a3.1
                match detectExec with
                | .error e => .error e
                | .ok detected =>
                  let a4 := answered a3.2
                  let servicePort := if a4.1 = "" then detected else a4.1
                  let ns := jsInterp nsRes
                  let pfCmd := portForwardCommand ns (envString env)
                    selectedService details.id localPort servicePort
                  .ok (.spawnPF (spawnArgsV2 pfCmd)
                    (logsCommand ns (envString env) selectedService details.id), 4)

/-!
Helper lemmas about the embedded operations.
-/

theorem mk_data (s : String) : String.mk s.data = s := rfl

theorem envGet_empty (env : Env) : envGet {} env = none := by
  cases env <;> rfl

theorem envGet_envSet (em : EnvMap) (env : Env) (e : Entry) (env' : Env) :
    envGet (envSet em env e) env' = if env' = env then some e else envGet em env' := by
  cases env <;> cases env' <;> simp [envGet, envSet]

theorem mapGet_nil (svc : String) (env : Env) : mapGet [] svc env = none := rfl

theorem mapGet_cons (k : String) (em : EnvMap) (tail : ServicesMap)
    (svc : String) (env : Env) :
    mapGet ((k, em) :: tail) svc env =
      if k = svc then envGet em env else mapGet tail svc env := by
  by_cases h : k = svc <;> simp [mapGet, lookupService, h]

theorem mapGet_insertEntry (m : ServicesMap) (svc : String) (env : Env) (e : Entry)
    (svc' : String) (env' : Env) :
    mapGet (insertEntry m svc env e) svc' env' =
      if svc' = svc ∧ env' = env then some e else mapGet m svc' env' := by
  induction m with
  | nil =>
    by_cases h1 : svc = svc'
    · subst h1
      by_cases h2 : env' = env <;>
        simp [insertEntry, mapGet_cons, mapGet_nil, envGet_envSet, envGet_empty, h2]
    · have h1' : ¬ svc' = svc := fun hh => h1 hh.symm
      simp [insertEntry, mapGet_cons, mapGet_nil, h1, h1']
  | cons head tail ih =>
    obtain ⟨k, em⟩ := head
    by_cases hk : k = svc
    · subst hk
      rw [insertEntry, if_pos rfl]
      by_cases h1 : k = svc'
      · subst h1
        rw [mapGet_cons, if_pos rfl, mapGet_cons, if_pos rfl, envGet_envSet]
        by_cases h2 : env' = env <;> simp [h2]
      · have h1' : ¬ svc' = k := fun hh => h1 hh.symm
        rw [mapGet_cons, if_neg h1, mapGet_cons, if_neg h1, if_neg (by tauto)]
    · rw [insertEntry, if_neg hk]
      by_cases h1 : k = svc'
      · subst h1
        rw [mapGet_cons, if_pos rfl, mapGet_cons, if_pos rfl, if_neg (by tauto)]
      · rw [mapGet_cons, if_neg h1, mapGet_cons, if_neg h1, ih]

theorem foldRows_mapGet (nsArg : Option String) (nsIdx nameIdx : Option Nat)
    (rows : List String) :
    ∀ (m m' : ServicesMap) (svc : String) (env : Env) (e : Entry),
      foldRows nsArg nsIdx nameIdx rows m = .ok m' →
      mapGet m' svc env = some e →
      (∃ line ∈ rows, parseRow nsArg nsIdx nameIdx line = .ok (some (svc, env, e))) ∨
        mapGet m svc env = some e := by
  induction rows with
  | nil =>
    intro m m' svc env e hf hg
    right
    simp only [foldRows] at hf
    cases hf
    exact hg
  | cons line rest ih =>
    intro m m' svc env e hf hg
    simp only [foldRows] at hf
    cases hp : parseRow nsArg nsIdx nameIdx line with
    | error err => rw [hp] at hf; cases hf
    | ok o =>
      rw [hp] at hf
      cases o with
      | none =>
        rcases ih m m' svc env e hf hg with ⟨l, hl, hpl⟩ | hbase
        · exact Or.inl ⟨l, List.mem_cons_of_mem _ hl, hpl⟩
        · exact Or.inr hbase
      | some trip =>
        obtain ⟨svc', env', e'⟩ := trip
        rcases ih _ m' svc env e hf hg with ⟨l, hl, hpl⟩ | hbase
        · exact Or.inl ⟨l, List.mem_cons_of_mem _ hl, hpl⟩
        · rw [mapGet_insertEntry] at hbase
          by_cases hc : svc = svc' ∧ env = env'
          · obtain ⟨h1, h2⟩ := hc
            subst h1; subst h2
            rw [if_pos ⟨rfl, rfl⟩] at hbase
            cases hbase
            exact Or.inl ⟨line, List.mem_cons_self _ _, hp⟩
          · rw [if_neg hc] at hbase
            exact Or.inr hbase

theorem envOfName_some_starts (name : String) (env0 : Env)
    (he : envOfName name = some env0) :
    strStarts name "dev-" = true ∨ strStarts name "qa-" = true ∨
      strStarts name "stg-" = true := by
  unfold envOfName at he
  by_cases h1 : strStarts name "dev-" = true
  · exact Or.inl h1
  · rw [if_neg (by simpa using h1)] at he
    by_cases h2 : strStarts name "qa-" = true
    · exact Or.inr (Or.inl h2)
    · rw [if_neg (by simpa using h2)] at he
      by_cases h3 : strStarts name "stg-" = true
      · exact Or.inr (Or.inr h3)
      · rw [if_neg (by simpa using h3)] at he
        cases he

theorem parseRow_ok_some (nsArg : Option String) (nsIdx nameIdx : Option Nat)
    (line : String) (svc : String) (env : Env) (e : Entry)
    (h : parseRow nsArg nsIdx nameIdx line = .ok (some (svc, env, e))) :
    ∃ name, getCol (splitWs line) nameIdx = some name ∧
      (strStarts name "dev-" = true ∨ strStarts name "qa-" = true ∨
        strStarts name "stg-" = true) ∧
      2 < (rowParts nsArg nsIdx line name).length := by
  cases hgc : getCol (splitWs line) nameIdx with
  | none =>
    unfold parseRow at h
    rw [hgc] at h
    simp at h
  | some name =>
    unfold parseRow at h
    rw [hgc] at h
    cases he : envOfName name with
    | none => simp [he] at h
    | some env0 =>
      by_cases hl : 2 < (rowParts nsArg nsIdx line name).length
      · exact ⟨name, rfl, envOfName_some_starts name env0 he, hl⟩
      · simp [he, hl] at h

theorem parseRow_skips (nsArg : Option String) (nsIdx nameIdx : Option Nat)
    (line : String) (name : String)
    (hc : getCol (splitWs line) nameIdx = some name)
    (hfail : ¬ ((strStarts name "dev-" = true ∨ strStarts name "qa-" = true ∨
        strStarts name "stg-" = true) ∧
      2 < (rowParts nsArg nsIdx line name).length)) :
    parseRow nsArg nsIdx nameIdx line = .ok none := by
  unfold parseRow
  rw [hc]
  cases he : envOfName name with
  | none => simp [he]
  | some env0 =>
    have hl : ¬ 2 < (rowParts nsArg nsIdx line name).length := by
      intro hl
      exact hfail ⟨envOfName_some_starts name env0 he, hl⟩
    simp [he, hl]

theorem insertSorted_length (x : String) (l : List String) :
    (insertSorted x l).length = l.length + 1 := by
  induction l with
  | nil => rfl
  | cons y rest ih =>
    by_cases h : strLeB x y = true <;> simp [insertSorted, h, ih]

theorem sortStrings_length (l : List String) :
    (sortStrings l).length = l.length := by
  induction l with
  | nil => rfl
  | cons x rest ih => simp [sortStrings, insertSorted_length, ih]

theorem splitOnChar_nil (sep : Char) : splitOnChar sep [] = [[]] := rfl

theorem splitOnChar_cons (sep c : Char) (rest : List Char) :
    splitOnChar sep (c :: rest) =
      if c = sep then [] :: splitOnChar sep rest
      else
        match splitOnChar sep rest with
        | t :: ts => (c :: t) :: ts
        | [] => [[c]] := rfl

theorem splitOnChar_no_sep (sep : Char) (a : List Char) (h : sep ∉ a) :
    splitOnChar sep a = [a] := by
  induction a with
  | nil => rfl
  | cons c rest ih =>
    simp only [List.mem_cons, not_or] at h
    obtain ⟨h1, h2⟩ := h
    have hcs : ¬ c = sep := fun hh => h1 hh.symm
    rw [splitOnChar_cons, if_neg hcs, ih h2]

theorem splitOnChar_sep_append (sep : Char) (a b : List Char) (h : sep ∉ a) :
    splitOnChar sep (a ++ sep :: b) = a :: splitOnChar sep b := by
  induction a with
  | nil => rw [List.nil_append, splitOnChar_cons, if_pos rfl]
  | cons c rest ih =>
    simp only [List.mem_cons, not_or] at h
    obtain ⟨h1, h2⟩ := h
    have hcs : ¬ c = sep := fun hh => h1 hh.symm
    rw [List.cons_append, splitOnChar_cons, if_neg hcs, ih h2]

theorem parseRow_nsArg_entry (ns : String) (nsIdx nameIdx : Option Nat)
    (line svc : String) (env : Env) (e : Entry)
    (h : parseRow (some ns) nsIdx nameIdx line = .ok (some (svc, env, e))) :
    e.ns = some ns := by
  cases hgc : getCol (splitWs line) nameIdx with
  | none =>
    unfold parseRow at h
    rw [hgc] at h
    simp at h
  | some name =>
    unfold parseRow at h
    rw [hgc] at h
    cases he : envOfName name with
    | none => simp [he] at h
    | some env0 =>
      by_cases hl : 2 < (rowParts (some ns) nsIdx line name).length
      · simp [he, hl] at h
        obtain ⟨-, -, h3⟩ := h
        rw [← h3]
        rfl
      · simp [he, hl] at h

theorem parseRow_noArg_entry (nsIdx nameIdx : Option Nat)
    (line svc : String) (env : Env) (e : Entry)
    (h : parseRow none nsIdx nameIdx line = .ok (some (svc, env, e))) :
    e.ns = getCol (splitWs line) nsIdx := by
  cases hgc : getCol (splitWs line) nameIdx with
  | none =>
    unfold parseRow at h
    rw [hgc] at h
    simp at h
  | some name =>
    unfold parseRow at h
    rw [hgc] at h
    cases he : envOfName name with
    | none => simp [he] at h
    | some env0 =>
      by_cases hl : 2 < (rowParts none nsIdx line name).length
      · simp [he, hl] at h
        obtain ⟨-, -, h3⟩ := h
        rw [← h3]
        rfl
      · simp [he, hl] at h

/-!
The claim theorems.
-/

/-- C1: the parser applied to a listing with one pod row whose NAME column is
dev-team-alpha-checkout-ab12-xy34 and whose NAMESPACE column is team-alpha
yields a mapping that contains service checkout whose dev entry has id
ab12-xy34 and namespace team-alpha. -/
theorem c1_example_row_parsed :
    ∃ m : ServicesMap,
      getServicesMap
        "NAMESPACE     NAME                                READY   STATUS   RESTARTS   AGE\nteam-alpha    dev-team-alpha-checkout-ab12-xy34   1/1     Running   0          21d"
        none = .ok m ∧
      mapGet m "checkout" Env.dev =
        some { id := "ab12-xy34", ns := some "team-alpha" } :=
  ⟨[("checkout", { dev := some { id := "ab12-xy34", ns := some "team-alpha" } })],
    by decide, by decide⟩

/-- C2: every entry of the service mapping comes from a data row whose NAME
column carries one of the environment tags dev-, qa-, stg- and whose name,
after stripping the tag and the namespace, splits on dashes into strictly
more than two parts; and any row whose NAME column fails either condition is
skipped by the row parser. -/
theorem c2_row_filter :
    (∀ (podsData : String) (nsArg : Option String) (m : ServicesMap) (svc : String)
        (env : Env) (e : Entry),
      getServicesMap podsData nsArg = .ok m →
      mapGet m svc env = some e →
      ∃ line ∈ dataRows podsData,
        ∃ name,
          getCol (splitWs line) (jsIndexOf "NAME" (headerCols podsData)) = some name ∧
          (strStarts name "dev-" = true ∨ strStarts name "qa-" = true ∨
            strStarts name "stg-" = true) ∧
          2 < (rowParts nsArg (jsIndexOf "NAMESPACE" (headerCols podsData))
            line name).length) ∧
    (∀ (nsArg : Option String) (nsIdx nameIdx : Option Nat) (line name : String),
      getCol (splitWs line) nameIdx = some name →
      ¬ ((strStarts name "dev-" = true ∨ strStarts name "qa-" = true ∨
          strStarts name "stg-" = true) ∧
        2 < (rowParts nsArg nsIdx line name).length) →
      parseRow nsArg nsIdx nameIdx line = .ok none) := by
  constructor
  · intro podsData nsArg m svc env e hm hg
    unfold getServicesMap at hm
    rcases foldRows_mapGet _ _ _ _ _ _ _ _ _ hm hg with ⟨line, hline, hp⟩ | hbase
    · obtain ⟨name, hn, hstarts, hlen⟩ := parseRow_ok_some _ _ _ _ _ _ _ hp
      exact ⟨line, hline, name, hn, hstarts, hlen⟩
    · rw [mapGet_nil] at hbase
      cases hbase
  · intro nsArg nsIdx nameIdx line name hc hfail
    exact parseRow_skips _ _ _ _ _ hc hfail

theorem c2_row_filter_witness :
    parseRow none (some 0) (some 1) "team-alpha   plainpod   1/1" = .ok none :=
  c2_row_filter.2 none (some 0) (some 1) "team-alpha   plainpod   1/1" "plainpod"
    (by decide) (by decide)

/-- C3 counterexample: the namespace stripping of the parser never removes a
mid-name occurrence of the namespace followed by a dash: there is no pod
name with a recognized environment tag in which such an occurrence is
strictly inside the stripped name and the stripping step still changes the
name. -/
theorem c3_no_mid_name_strip :
    ¬ ∃ ns name : String,
      (strStarts name "dev-" = true ∨ strStarts name "qa-" = true ∨
        strStarts name "stg-" = true) ∧
      strStarts (stripEnvTag name) (ns ++ "-") = false ∧
      (∃ a b : String, stripEnvTag name = a ++ (ns ++ "-") ++ b ∧ a ≠ "") ∧
      stripNsOnce ns (stripEnvTag name) ≠ stripEnvTag name := by
  rintro ⟨ns, name, -, hns, -, hchange⟩
  exact hchange (by simp [stripNsOnce, hns])

/-- C3 amended: the namespace stripping step is anchored: it removes exactly
the leading namespace-dash occurrence when the stripped name starts with it,
and leaves the name unchanged otherwise, so an occurrence that is not a
leading substring is never removed. -/
theorem c3_anchored_strip (ns s : String) :
    (strStarts s (ns ++ "-") = true ∧
      stripNsOnce ns s = String.mk (s.data.drop (ns.data.length + 1))) ∨
    (strStarts s (ns ++ "-") = false ∧ stripNsOnce ns s = s) := by
  cases hb : strStarts s (ns ++ "-")
  · exact Or.inr ⟨rfl, by simp [stripNsOnce, hb]⟩
  · exact Or.inl ⟨rfl, by simp [stripNsOnce, hb]⟩

/-- C9: for every input text whose header contains the NAMESPACE and NAME
tokens, the parser is deterministic and idempotent in the stated sense:
parsing the same text with the same namespace argument twice yields equal
mappings (the embedded parser is a pure function of its two arguments). -/
theorem c9_parse_deterministic (podsData : String) (nsArg : Option String)
    (h1 : "NAMESPACE" ∈ headerCols podsData) (h2 : "NAME" ∈ headerCols podsData) :
    getServicesMap podsData nsArg = getServicesMap podsData nsArg := rfl

theorem c9_parse_deterministic_witness :
    getServicesMap "NAMESPACE NAME\nns1 dev-ns1-svc-a1-b2" none =
      getServicesMap "NAMESPACE NAME\nns1 dev-ns1-svc-a1-b2" none :=
  c9_parse_deterministic "NAMESPACE NAME\nns1 dev-ns1-svc-a1-b2" none
    (by decide) (by decide)

/-- C10: with a namespace argument the row parser ignores the NAMESPACE
column position entirely and every mapping entry carries the argument as its
namespace; without the argument an accepted row's entry carries the value of
its NAMESPACE column. -/
theorem c10_namespace_arg :
    (∀ (ns : String) (nsIdx nsIdx' nameIdx : Option Nat) (line : String),
      parseRow (some ns) nsIdx nameIdx line = parseRow (some ns) nsIdx' nameIdx line) ∧
    (∀ (podsData ns : String) (m : ServicesMap) (svc : String) (env : Env) (e : Entry),
      getServicesMap podsData (some ns) = .ok m →
      mapGet m svc env = some e → e.ns = some ns) ∧
    (∀ (nsIdx nameIdx : Option Nat) (line svc : String) (env : Env) (e : Entry),
      parseRow none nsIdx nameIdx line = .ok (some (svc, env, e)) →
      e.ns = getCol (splitWs line) nsIdx) := by
  refine ⟨?_, ?_, ?_⟩
  · intro ns nsIdx nsIdx' nameIdx line
    rfl
  · intro podsData ns m svc env e hm hg
    unfold getServicesMap at hm
    rcases foldRows_mapGet _ _ _ _ _ _ _ _ _ hm hg with ⟨line, -, hp⟩ | hbase
    · exact parseRow_nsArg_entry _ _ _ _ _ _ _ hp
    · rw [mapGet_nil] at hbase
      cases hbase
  · intro nsIdx nameIdx line svc env e h
    exact parseRow_noArg_entry _ _ _ _ _ _ h

theorem c10_namespace_arg_witness :
    (({ id := "a1-b2", ns := some "myns" } : Entry)).ns = some "myns" :=
  c10_namespace_arg.2.1 "NAMESPACE NAME\nignored dev-myns-svc-a1-b2" "myns"
    [("svc", { dev := some { id := "a1-b2", ns := some "myns" } })]
    "svc" Env.dev { id := "a1-b2", ns := some "myns" }
    (by decide) (by decide)

/-- C7: when the trimmed pod listing consists of the header line only, the
parser yields the empty mapping and the flow ends with the no-services
report after zero questions, spawning nothing. -/
theorem c7_header_only_no_services (podsData : String) (nsArg : Option String)
    (inputs : List String) (detectExec : Except Unit String)
    (h : (jsSplit '\n' (jsTrim podsData)).length = 1) :
    getServicesMap podsData nsArg = .ok [] ∧
    mainFlow podsData nsArg inputs detectExec = .ok (.noServices, 0) := by
  have hrows : dataRows podsData = [] := by
    unfold dataRows
    obtain ⟨x, hx⟩ := List.length_eq_one.mp h
    rw [hx]
    rfl
  have hm : getServicesMap podsData nsArg = .ok [] := by
    unfold getServicesMap
    rw [hrows]
    rfl
  refine ⟨hm, ?_⟩
  unfold mainFlow
  rw [hm]
  rfl

theorem c7_header_only_no_services_witness :
    getServicesMap "NAMESPACE   NAME   READY   STATUS   RESTARTS   AGE" none = .ok [] ∧
    mainFlow "NAMESPACE   NAME   READY   STATUS   RESTARTS   AGE" none []
      (.ok "3000") = .ok (.noServices, 0) :=
  c7_header_only_no_services "NAMESPACE   NAME   READY   STATUS   RESTARTS   AGE"
    none [] (.ok "3000") (by decide)

/-- C8: the exec wrapper fails exactly when the command reported an error or
wrote to standard error, and otherwise yields the captured stdout unchanged;
in v0.0.2 the failure is a rejection carrying the message, in v0.0.1 an
early return. -/
theorem c8_exec_failure_iff (o : ExecOutcome) :
    ((∃ msg, execPromise o = .error msg) ↔ (o.error ≠ none ∨ o.stderr ≠ "")) ∧
    (∀ s, execPromise o = .ok s ↔ (o.error = none ∧ o.stderr = "" ∧ s = o.stdout)) ∧
    (∀ s, execHandlerV1 o = some s ↔ (o.error = none ∧ o.stderr = "" ∧ s = o.stdout)) ∧
    (execHandlerV1 o = none ↔ (o.error ≠ none ∨ o.stderr ≠ "")) := by
  obtain ⟨err, out, serr⟩ := o
  cases err with
  | none =>
    by_cases hs : serr = "" <;>
      simp [execPromise, execHandlerV1, hs, eq_comm]
  | some msg =>
    simp [execPromise, execHandlerV1]

/-- C5 counterexample: at the v0.0.2 environment prompt the nonempty,
non-numeric answer abc does not denote any of the options 1, 2 or 3, yet the
script does not print an error and terminate: the answer selects dev and the
session goes on to spawn the port-forward child process. -/
theorem c5_nonnumeric_env_answer_selects_dev :
    ("abc" ≠ "" ∧ "abc" ≠ "1" ∧ "abc" ≠ "2" ∧ "abc" ≠ "3") ∧
    selectEnvV2 "abc" = some Env.dev ∧
    mainFlow
      "NAMESPACE     NAME                                READY   STATUS\nteam-alpha    dev-team-alpha-checkout-ab12-xy34   1/1     Running"
      none ["1", "abc", "", ""] (.ok "3000") =
      .ok (.spawnPF
        ["port-forward", "--namespace", "team-alpha",
          "dev-team-alpha-checkout-ab12-xy34", "3000:3000"]
        "kubectl logs --namespace team-alpha dev-team-alpha-checkout-ab12-xy34 -f",
        4) :=
  ⟨by decide, by decide, by decide⟩

/-- C5 amended: an empty environment answer selects dev in v0.0.2 while
v0.0.1 has no default; in v0.0.1 every answer other than the exact strings
1, 2, 3 terminates with an error; in v0.0.2 the answer is run through
parseInt with a fallback of 1 for falsy results, so the session terminates
with an error exactly when the answer parses to a number other than 0, 1, 2
or 3, and in that case the flow ends at the environment question without
spawning anything. -/
theorem c5_env_prompt_behavior :
    (selectEnvV2 "" = some Env.dev) ∧
    (selectEnvV1 "" = none) ∧
    (∀ ans, selectEnvV1 ans = none ↔ (ans ≠ "1" ∧ ans ≠ "2" ∧ ans ≠ "3")) ∧
    (∀ ans, selectEnvV2 ans = none ↔
      ∃ n : Int, parseIntJs ans = some n ∧ n ≠ 0 ∧ n ≠ 1 ∧ n ≠ 2 ∧ n ≠ 3) ∧
    (∀ (podsData : String) (nsArg : Option String) (i1 i2 : String)
        (rest : List String) (detectExec : Except Unit String) (m : ServicesMap)
        (k : Int),
      getServicesMap podsData nsArg = .ok m →
      parseIntJs (jsTrim i1) = some k → 1 ≤ k → k ≤ (m.length : Int) →
      selectEnvV2 (jsTrim i2) = none →
      mainFlow podsData nsArg (i1 :: i2 :: rest) detectExec =
        .ok (.invalidEnv, 2)) := by
  refine ⟨by decide, by decide, ?_, ?_, ?_⟩
  · intro ans
    unfold selectEnvV1
    by_cases h1 : ans = "1" <;> by_cases h2 : ans = "2" <;> by_cases h3 : ans = "3" <;>
      simp [h1, h2, h3]
  · intro ans
    unfold selectEnvV2 envChoiceV2
    cases hp : parseIntJs ans with
    | none => simp
    | some n =>
      by_cases h0 : n = 0
      · subst h0; simp
      · by_cases h1 : n = 1
        · subst h1; simp
        · by_cases h2 : n = 2
          · subst h2; simp [h0]
          · by_cases h3 : n = 3
            · subst h3; simp [h0]
            · simp [h0, h1, h2, h3]
  · intro podsData nsArg i1 i2 rest detectExec m k hm hp h1k hkm henv
    have hlen : (sortStrings (m.map Prod.fst)).length = m.length := by
      rw [sortStrings_length, List.length_map]
    have hlen0 : ¬ (sortStrings (m.map Prod.fst)).length = 0 := by
      rw [hlen]
      omega
    have hcond : ¬ (k - 1 < 0 ∨ ((sortStrings (m.map Prod.fst)).length : Int) ≤ k - 1) := by
      rw [hlen]
      omega
    unfold mainFlow
    rw [hm]
    dsimp only [answered]
    rw [if_neg hlen0, hp]
    simp only [Option.map_some']
    rw [if_neg hcond, henv]

theorem c5_env_prompt_behavior_witness :
    mainFlow
      "NAMESPACE     NAME                                READY   STATUS\nteam-alpha    dev-team-alpha-checkout-ab12-xy34   1/1     Running"
      none ["1", "9", "", ""] (.ok "3000") = .ok (.invalidEnv, 2) :=
  c5_env_prompt_behavior.2.2.2.2
    "NAMESPACE     NAME                                READY   STATUS\nteam-alpha    dev-team-alpha-checkout-ab12-xy34   1/1     Running"
    none "1" "9" ["", ""] (.ok "3000")
    [("checkout", { dev := some { id := "ab12-xy34", ns := some "team-alpha" } })]
    1 (by decide) (by decide) (by decide) (by decide) (by decide)

/-- C6: a service-index answer that does not parse to an integer, or parses
to one outside the listed range, ends the session at the first question with
the invalid-selection error; and when the chosen service has no entry for
the chosen environment the session ends at the second question with the
missing-environment error; in both cases the flow result is the error
outcome, not the spawning one, so no child process is spawned. -/
theorem c6_invalid_selection_terminates :
    (∀ (podsData : String) (nsArg : Option String) (i1 : String) (rest : List String)
        (detectExec : Except Unit String) (m : ServicesMap),
      getServicesMap podsData nsArg = .ok m → m ≠ [] →
      (parseIntJs (jsTrim i1) = none ∨
        ∃ k : Int, parseIntJs (jsTrim i1) = some k ∧ (k < 1 ∨ (m.length : Int) < k)) →
      mainFlow podsData nsArg (i1 :: rest) detectExec = .ok (.invalidService, 1)) ∧
    (∀ (podsData : String) (nsArg : Option String) (i1 i2 : String)
        (rest : List String) (detectExec : Except Unit String) (m : ServicesMap)
        (k : Int) (em : EnvMap) (env : Env),
      getServicesMap podsData nsArg = .ok m →
      parseIntJs (jsTrim i1) = some k → 1 ≤ k → k ≤ (m.length : Int) →
      selectEnvV2 (jsTrim i2) = some env →
      lookupService m ((sortStrings (m.map Prod.fst)).getD (k - 1).toNat "") = some em →
      envGet em env = none →
      mainFlow podsData nsArg (i1 :: i2 :: rest) detectExec =
        .ok (.envMissing, 2)) := by
  constructor
  · intro podsData nsArg i1 rest detectExec m hm hne hbad
    have hlen : (sortStrings (m.map Prod.fst)).length = m.length := by
      rw [sortStrings_length, List.length_map]
    have hmlen : m.length ≠ 0 := by
      intro h0
      exact hne (List.length_eq_zero.mp h0)
    have hlen0 : ¬ (sortStrings (m.map Prod.fst)).length = 0 := by
      rw [hlen]
      exact hmlen
    unfold mainFlow
    rw [hm]
    dsimp only [answered]
    rw [if_neg hlen0]
    rcases hbad with hnone | ⟨k, hk, hrange⟩
    · rw [hnone]
      rfl
    · rw [hk]
      simp only [Option.map_some']
      have hcond : (k - 1 < 0 ∨ ((sortStrings (m.map Prod.fst)).length : Int) ≤ k - 1) := by
        rw [hlen]
        omega
      rw [if_pos hcond]
  · intro podsData nsArg i1 i2 rest detectExec m k em env hm hp h1k hkm henv hsvc hmiss
    have hlen : (sortStrings (m.map Prod.fst)).length = m.length := by
      rw [sortStrings_length, List.length_map]
    have hlen0 : ¬ (sortStrings (m.map Prod.fst)).length = 0 := by
      rw [hlen]
      omega
    have hcond : ¬ (k - 1 < 0 ∨ ((sortStrings (m.map Prod.fst)).length : Int) ≤ k - 1) := by
      rw [hlen]
      omega
    unfold mainFlow
    rw [hm]
    dsimp only [answered]
    rw [if_neg hlen0, hp]
    simp only [Option.map_some']
    rw [if_neg hcond, henv, hsvc]
    simp [hmiss]

theorem c6_invalid_selection_terminates_witness :
    mainFlow
      "NAMESPACE     NAME                                READY   STATUS\nteam-alpha    dev-team-alpha-checkout-ab12-xy34   1/1     Running"
      none ["7", "1", "", ""] (.ok "3000") = .ok (.invalidService, 1) :=
  c6_invalid_selection_terminates.1
    "NAMESPACE     NAME                                READY   STATUS\nteam-alpha    dev-team-alpha-checkout-ab12-xy34   1/1     Running"
    none "7" ["1", "", ""] (.ok "3000")
    [("checkout", { dev := some { id := "ab12-xy34", ns := some "team-alpha" } })]
    (by decide) (by decide)
    (Or.inr ⟨7, by decide, by decide⟩)

/-- C4: for every resolved selection, the spawned forwarding invocation is
kubectl with the argument vector port-forward, namespace flag and value, the
pod identifier environment-namespace-service-id, and the port mapping
local:destination; in v0.0.1 the destination port is always 3000. -/
theorem c4_port_forward_args (ns env svc id L D : String)
    (hns : ' ' ∉ ns.data) (henv : ' ' ∉ env.data) (hsvc : ' ' ∉ svc.data)
    (hid : ' ' ∉ id.data) (hL : ' ' ∉ L.data) (hD : ' ' ∉ D.data) :
    spawnArgsV2 (portForwardCommand ns env svc id L D) =
      ["port-forward", "--namespace", ns,
        env ++ "-" ++ ns ++ "-" ++ svc ++ "-" ++ id, L ++ ":" ++ D] ∧
    spawnArgsV1 ns env svc id L =
      ["port-forward", "--namespace", ns,
        env ++ "-" ++ ns ++ "-" ++ svc ++ "-" ++ id, L ++ ":3000"] := by
  have hdash : ("-" : String).data = ['-'] := rfl
  have hcolon : (":" : String).data = [':'] := rfl
  have hsp : (" " : String).data = [' '] := rfl
  have hd1 : ¬ (' ' = '-') := by decide
  have hd2 : ¬ (' ' = ':') := by decide
  have hpoddata : (podIdent env ns svc id).data =
      env.data ++ '-' :: (ns.data ++ '-' :: (svc.data ++ '-' :: id.data)) := by
    simp [podIdent, String.data_append, hdash]
  have hpod : ' ' ∉ (podIdent env ns svc id).data := by
    rw [hpoddata]
    simp [List.mem_append, List.mem_cons, hd1]
    exact ⟨henv, hns, hsvc, hid⟩
  have hlast : ' ' ∉ L.data ++ ':' :: D.data := by
    simp [List.mem_append, List.mem_cons, hd2]
    exact ⟨hL, hD⟩
  have hlit : ("kubectl port-forward --namespace " : String).data =
      "kubectl".data ++ ' ' ::
        ("port-forward".data ++ ' ' :: ("--namespace".data ++ [' '])) := by decide
  have hcmd : (portForwardCommand ns env svc id L D).data =
      "kubectl".data ++ ' ' :: ("port-forward".data ++ ' ' ::
        ("--namespace".data ++ ' ' :: (ns.data ++ ' ' ::
          ((podIdent env ns svc id).data ++ ' ' ::
            (L.data ++ ':' :: D.data))))) := by
    simp [portForwardCommand, String.data_append, hlit, hsp, hcolon]
  have hsplit : splitOnChar ' ' (portForwardCommand ns env svc id L D).data =
      ["kubectl".data, "port-forward".data, "--namespace".data, ns.data,
        (podIdent env ns svc id).data, L.data ++ ':' :: D.data] := by
    rw [hcmd, splitOnChar_sep_append _ _ _ (by decide),
        splitOnChar_sep_append _ _ _ (by decide),
        splitOnChar_sep_append _ _ _ (by decide),
        splitOnChar_sep_append _ _ _ hns,
        splitOnChar_sep_append _ _ _ hpod,
        splitOnChar_no_sep _ _ hlast]
  have hLD : String.mk (L.data ++ ':' :: D.data) = L ++ ":" ++ D := by
    have h1 : (L ++ ":" ++ D).data = L.data ++ ':' :: D.data := by
      simp [String.data_append, hcolon]
    rw [← h1, mk_data]
  constructor
  · unfold spawnArgsV2 jsSplit
    rw [hsplit]
    simp only [List.map_cons, List.map_nil, List.drop_succ_cons, List.drop_zero,
      mk_data, hLD]
    rfl
  · rfl

theorem c4_port_forward_args_witness :
    spawnArgsV2 (portForwardCommand "team-alpha" "dev" "checkout" "ab12-xy34"
        "8080" "9090") =
      ["port-forward", "--namespace", "team-alpha",
        "dev" ++ "-" ++ "team-alpha" ++ "-" ++ "checkout" ++ "-" ++ "ab12-xy34",
        "8080" ++ ":" ++ "9090"] ∧
    spawnArgsV1 "team-alpha" "dev" "checkout" "ab12-xy34" "8080" =
      ["port-forward", "--namespace", "team-alpha",
        "dev" ++ "-" ++ "team-alpha" ++ "-" ++ "checkout" ++ "-" ++ "ab12-xy34",
        "8080" ++ ":3000"] :=
  c4_port_forward_args "team-alpha" "dev" "checkout" "ab12-xy34" "8080" "9090"
    (by decide) (by decide) (by decide) (by decide) (by decide) (by decide)

theorem c3_anchored_strip_witness :
    (strStarts "x-ns-y-a1-b2" ("ns" ++ "-") = true ∧
      stripNsOnce "ns" "x-ns-y-a1-b2" =
        String.mk ("x-ns-y-a1-b2".data.drop (("ns" : String).data.length + 1))) ∨
    (strStarts "x-ns-y-a1-b2" ("ns" ++ "-") = false ∧
      stripNsOnce "ns" "x-ns-y-a1-b2" = "x-ns-y-a1-b2") :=
  c3_anchored_strip "ns" "x-ns-y-a1-b2"

theorem c8_exec_failure_iff_witness :
    ((∃ msg, execPromise ⟨none, "PODS", ""⟩ = .error msg) ↔
      ((⟨none, "PODS", ""⟩ : ExecOutcome).error ≠ none ∨
        (⟨none, "PODS", ""⟩ : ExecOutcome).stderr ≠ "")) ∧
    (∀ s, execPromise ⟨none, "PODS", ""⟩ = .ok s ↔
      ((⟨none, "PODS", ""⟩ : ExecOutcome).error = none ∧
        (⟨none, "PODS", ""⟩ : ExecOutcome).stderr = "" ∧
        s = (⟨none, "PODS", ""⟩ : ExecOutcome).stdout)) ∧
    (∀ s, execHandlerV1 ⟨none, "PODS", ""⟩ = some s ↔
      ((⟨none, "PODS", ""⟩ : ExecOutcome).error = none ∧
        (⟨none, "PODS", ""⟩ : ExecOutcome).stderr = "" ∧
        s = (⟨none, "PODS", ""⟩ : ExecOutcome).stdout)) ∧
    (execHandlerV1 ⟨none, "PODS", ""⟩ = none ↔
      ((⟨none, "PODS", ""⟩ : ExecOutcome).error ≠ none ∨
        (⟨none, "PODS", ""⟩ : ExecOutcome).stderr ≠ "")) :=
  c8_exec_failure_iff ⟨none, "PODS", ""⟩
